import Mathlib

/-!
Verification of the world-id-marbles seed-consuming deterministic generator
(`packages/world-id-marbles/src/lib.rs`, the canonical variant).

The Rust core is shallowly embedded as follows.  The arbitrary-precision
non-negative seed (`U256`) is modelled as `Nat`; the repository only ever
divides and takes remainders, so no overflow wrapping occurs and `Nat` is
exact on the non-negative range.  `Marble` carries the remaining seed value
plus a ghost `trace` that logs every draw as a `(modulus, result)` pair in
call order; the trace is pure instrumentation for stating the draw-order
contract and never influences the seed evolution or the produced string.
Fallible operations (division by a zero modulus, out-of-bounds indexing,
seed-string parsing) return `Option`, with `none` standing for the Rust
panic/error path.
-/

set_option maxRecDepth 10000

namespace Marbles

/-- The fixed 36-entry palette `COLORS` from the source, in source order. -/
def COLORS : List String := [
  "#FF0000", "#FF2B00", "#FF5500", "#FF8000", "#FFAA00", "#FFD500", "#FFFF00", "#D4FF00",
  "#AAFF00", "#80FF00", "#55FF00", "#2BFF00", "#00FF00", "#00FF2A", "#00FF2A", "#00FF80",
  "#00FFAA", "#00FFD4", "#00FFFF", "#00D4FF", "#00AAFF", "#0080FF", "#0055FF", "#002AFF",
  "#0000FF", "#2A00FF", "#0000FF", "#5500FF", "#8000FF", "#AA00FF", "#D500FF", "#FF00FF",
  "#FF00D5", "#FF00AA", "#FF0080", "#FF0055"]

/-- The `Marble` struct: the remaining seed value, plus a ghost log of the
draws performed so far as `(modulus, result)` pairs in call order. -/
structure Marble where
  seed : Nat
  trace : List (Nat × Nat)
deriving DecidableEq

/-- Modelled from the spec: seed strings are converted by an external
big-integer routine (`U256::from_str_radix` with radix 10) whose source is
not part of this repository.  Per the spec, the accepted form is a string of
decimal digits with no sign, whitespace, or non-decimal characters; malformed
input fails conversion. -/
def from_str_radix_ten (s : String) : Option Nat :=
  if s.data ≠ [] ∧ s.data.all Char.isDigit then
    some (s.data.foldl (fun acc c => acc * 10 + (c.toNat - 48)) 0)
  else none

/-- `Seedable::to_seed` for string seeds (`impl Seedable for &str`). -/
def to_seed (s : String) : Option Nat := from_str_radix_ten s

/-- `Marble::new` for a string seed: convert the seed, then wrap it.
`none` models the panic on a failed conversion — no `Marble` exists then. -/
def Marble.new (s : String) : Option Marble :=
  (to_seed s).map fun v => ⟨v, []⟩

/-- `Marble::random_number`: `result = seed % max; seed /= max`.  A zero
modulus is the Rust division-by-zero panic, modelled as `none`.  The ghost
trace records the draw. -/
def random_number (max : Nat) (s : Marble) : Option (Nat × Marble) :=
  if max = 0 then none
  else some (s.seed % max, ⟨s.seed / max, s.trace ++ [(max, s.seed % max)]⟩)

/-- `Marble::random_color`: draw an index with modulus `COLORS.len()` and
index the palette.  An out-of-bounds index would be the Rust index panic,
modelled as `none`. -/
def random_color (s : Marble) : Option (String × Marble) :=
  match random_number COLORS.length s with
  | none => none
  | some (k, s1) =>
    match COLORS.get? k with
    | none => none
    | some c => some (c, s1)

/-- `Marble::random_sort`, with the `while !arr.is_empty()` loop unrolled on
an explicit iteration-count bound (first argument) so that the definition is
structurally recursive: each iteration draws `k` with modulus equal to the
current list length, then removes and emits the element at position `k`.
The bound is always instantiated with the initial list length, which is
exactly the number of iterations the Rust loop performs. -/
def random_sort_iter : Nat → List String → Marble → Option (List String × Marble)
  | _, [], s => some ([], s)
  | 0, _ :: _, _ => none
  | n + 1, a :: tl, s =>
    match random_number (a :: tl).length s with
    | none => none
    | some (k, s1) =>
      match (a :: tl).get? k with
      | none => none
      | some x =>
        match random_sort_iter n ((a :: tl).eraseIdx k) s1 with
        | none => none
        | some (rest, s2) => some (x :: rest, s2)

/-- `Marble::random_sort` on the initial list. -/
def random_sort (arr : List String) (s : Marble) : Option (List String × Marble) :=
  random_sort_iter arr.length arr s

/-- Shape template 1 (ellipse-A, `cx="33.545"`), after `formatdoc!` dedent,
with its color substitution point. -/
def shapeA (color : String) : String :=
  "<g filter=\"url(#blur)\" opacity=\".9\">\n    <ellipse cx=\"33.545\" cy=\"32.494\" fill=\"" ++
    color ++
    "\" rx=\"33.545\" ry=\"32.494\" transform=\"matrix(-.48289 -.87568 .7985 -.602 9.46 74.034)\"/>\n</g>\n"

/-- Shape template 2 (the path), after `formatdoc!` dedent. -/
def shapeP (color : String) : String :=
  "<g filter=\"url(#blur)\" opacity=\".8\">\n    <path fill=\"" ++
    color ++
    "\" d=\"M78.824-16.686c17.78 14.541 4.24 87.76-2.637 82.948-4.194-2.935-9.153-27.765-22.32-38.405-8.418-6.802-23.488-1.839-33.086-1.137-24.614 1.8 40.115-58.069 58.043-43.406Z\"/>\n</g>\n"

/-- Shape template 3 (ellipse-B, `cx="39.533"`), after `formatdoc!` dedent. -/
def shapeB (color : String) : String :=
  "<g filter=\"url(#blur)\" opacity=\".8\">\n    <ellipse cx=\"39.533\" cy=\"39.042\" fill=\"" ++
    color ++
    "\" rx=\"39.533\" ry=\"39.042\" transform=\"matrix(-.2882 -.95757 .93652 -.35062 13.847 67.74)\" />\n</g>\n"

/-- The outer SVG document up to the `rotate(` substitution point. -/
def svgPre : String :=
  "<svg xmlns=\"http://www.w3.org/2000/svg\" fill=\"none\" viewBox=\"0 0 80 80\" transform=\"rotate("

/-- The outer SVG document between the rotation and the shapes substitution
points. -/
def svgMid : String :=
  " 40 40)\">\n    <g clip-path=\"url(#a)\">\n        <circle cx=\"40\" cy=\"40\" r=\"40\" fill=\"#F8F8F8\" />\n        "

/-- The outer SVG document after the shapes: the fixed blur filter and
circular clip definitions. -/
def svgSuf : String :=
  "\n    </g>\n    <defs>\n        <filter id=\"blur\" width=\"300\" height=\"300\" x=\"0\" y=\"0\" color-interpolation-filters=\"sRGB\" filterUnits=\"userSpaceOnUse\">\n            <feGaussianBlur result=\"effect1_foregroundBlur_557_59789\" stdDeviation=\"9.6\" />\n        </filter>\n        <clipPath id=\"a\">\n            <rect width=\"80\" height=\"80\" fill=\"#fff\" rx=\"40\" />\n        </clipPath>\n    </defs>\n</svg>\n"

/-- Assembly of the outer `formatdoc!` document from the joined shapes and
the rotation angle (rendered in decimal, as Rust `Display` for `u32`). -/
def svgDocument (shapes : String) (rotation : Nat) : String :=
  svgPre ++ Nat.repr rotation ++ svgMid ++ shapes ++ svgSuf

/-- `Marble::build_svg`: three color draws bound to the templates in
template-definition order (ellipse-A, path, ellipse-B), then — following the
evaluation order of the final `formatdoc!` argument list — the destructive
shuffle of the three filled templates, then the rotation draw (modulus 359). -/
def build_svg (s : Marble) : Option (String × Marble) := do
  let (c1, s1) ← random_color s
  let (c2, s2) ← random_color s1
  let (c3, s3) ← random_color s2
  let shapes := [shapeA c1, shapeP c2, shapeB c3]
  let (shuffled, s4) ← random_sort shapes s3
  let (rot, s5) ← random_number 359 s4
  pure (svgDocument (String.join shuffled) rot, s5)

/-- The emission order that one pass of the destructive shuffle produces on a
three-element working list, given the two meaningful drawn indices `k1 < 3`
and `k2 < 2` (the third draw has modulus 1 and always picks position 0). -/
def shuffle3 (l : List String) (k1 k2 : Nat) : List String :=
  [l.getD k1 (""), (l.eraseIdx k1).getD k2 (""), ((l.eraseIdx k1).eraseIdx k2).getD 0 ("")]

/-- The palette entry at index `k` (with an irrelevant default, since every
use is at an index below 36). -/
def colorAt (k : Nat) : String := COLORS.getD k ("")

lemma COLORS_length : COLORS.length = 36 := rfl

lemma COLORS_get (k : Nat) (h : k < 36) : COLORS[k]? = some (colorAt k) := by
  interval_cases k <;> rfl

lemma colorAt_mem (k : Nat) (h : k < 36) : colorAt k ∈ COLORS := by
  interval_cases k <;> decide

lemma random_color_eval (s : Marble) :
    random_color s = some (colorAt (s.seed % 36),
      ⟨s.seed / 36, s.trace ++ [(36, s.seed % 36)]⟩) := by
  have h : s.seed % 36 < 36 := Nat.mod_lt _ (by norm_num)
  simp [random_color, random_number, COLORS_length, COLORS_get _ h]

lemma random_sort_three (a b c : String) (s : Marble) :
    random_sort [a, b, c] s = some
      (shuffle3 [a, b, c] (s.seed % 3) (s.seed / 3 % 2),
       ⟨s.seed / 3 / 2, s.trace ++ [(3, s.seed % 3), (2, s.seed / 3 % 2), (1, 0)]⟩) := by
  obtain ⟨v, t⟩ := s
  have h1 : v % 3 = 0 ∨ v % 3 = 1 ∨ v % 3 = 2 := by omega
  have h2 : v / 3 % 2 = 0 ∨ v / 3 % 2 = 1 := by omega
  rcases h1 with h1 | h1 | h1 <;> rcases h2 with h2 | h2 <;>
    simp [random_sort, random_sort_iter, random_number, shuffle3, h1, h2,
      Nat.mod_one, Nat.div_one]

/-- Closed-form evaluation of `build_svg` on an arbitrary marble: the colors
come from the first three draws (modulus 36) bound to the templates in
definition order, then the shuffle draws (moduli 3, 2, 1), then the rotation
draw (modulus 359); the trace records the seven draws in that order. -/
lemma build_svg_eval (v : Nat) (t : List (Nat × Nat)) :
    build_svg ⟨v, t⟩ = some
      (svgDocument (String.join (shuffle3
          [shapeA (colorAt (v % 36)), shapeP (colorAt (v / 36 % 36)),
           shapeB (colorAt (v / 36 / 36 % 36))]
          (v / 36 / 36 / 36 % 3) (v / 36 / 36 / 36 / 3 % 2)))
        (v / 36 / 36 / 36 / 3 / 2 % 359),
       ⟨v / 36 / 36 / 36 / 3 / 2 / 359,
        t ++ [(36, v % 36), (36, v / 36 % 36), (36, v / 36 / 36 % 36),
              (3, v / 36 / 36 / 36 % 3), (2, v / 36 / 36 / 36 / 3 % 2), (1, 0),
              (359, v / 36 / 36 / 36 / 3 / 2 % 359)]⟩) := by
  simp [build_svg, random_color_eval, random_sort_three, random_number, bind, Option.bind]

/-- C3: a single draw with a positive modulus `m` returns `seed % m` (which
is strictly below `m`), leaves the internal value at `seed / m`, and records
the draw; in particular a draw from internal value 0 returns 0 and leaves the
value 0, without error. -/
theorem draw_contract (s : Marble) (m : Nat) (h : 0 < m) :
    random_number m s = some (s.seed % m, ⟨s.seed / m, s.trace ++ [(m, s.seed % m)]⟩) ∧
    s.seed % m < m ∧
    (s.seed = 0 → random_number m s = some (0, ⟨0, s.trace ++ [(m, 0)]⟩)) := by
  refine ⟨by simp [random_number, h.ne'], Nat.mod_lt _ h, fun h0 => ?_⟩
  simp [random_number, h.ne', h0]

/-- Witness for C3 at modulus 3 and internal value 7. -/
theorem draw_contract_witness :
    random_number 3 ⟨7, []⟩ = some (7 % 3, ⟨7 / 3, [] ++ [(3, 7 % 3)]⟩) ∧
    7 % 3 < 3 ∧
    ((7 : Nat) = 0 → random_number 3 ⟨7, []⟩ = some (0, ⟨0, [] ++ [(3, 0)]⟩)) :=
  draw_contract ⟨7, []⟩ 3 (by decide)

/-- C4: seed 0 draws color index 0 three times (all three colors are palette
entry 0, `#FF0000`), draws 0 at every shuffle step so the emission order is
the original template order (ellipse-A, path, ellipse-B), and draws
rotation 0. -/
theorem zero_seed_behavior :
    build_svg ⟨0, []⟩ = some
      (svgDocument (String.join [shapeA ("#FF0000"), shapeP ("#FF0000"), shapeB ("#FF0000")]) 0,
       ⟨0, [(36, 0), (36, 0), (36, 0), (3, 0), (2, 0), (1, 0), (359, 0)]⟩) ∧
    COLORS.get? 0 = some ("#FF0000") ∧ to_seed ("0") = some 0 := by
  refine ⟨?_, rfl, rfl⟩
  rw [build_svg_eval]
  simp [shuffle3, colorAt, COLORS]

/-- C5: `build_svg` on fresh marbles built from equal seed values produces
identical output — the output is a pure function of the seed. -/
theorem build_svg_deterministic (v1 v2 : Nat) (h : v1 = v2) :
    build_svg ⟨v1, []⟩ = build_svg ⟨v2, []⟩ := by rw [h]

/-- Witness for C5 at seed 123456789. -/
theorem build_svg_deterministic_witness :
    build_svg ⟨123456789, []⟩ = build_svg ⟨123456789, []⟩ :=
  build_svg_deterministic 123456789 123456789 rfl

/-- C6: a seed string containing a non-digit character fails conversion, and
`Marble::new` on it yields no marble at all. -/
theorem seed_format_error (s : String) (h : ∃ c ∈ s.data, ¬ c.isDigit) :
    to_seed s = none ∧ Marble.new s = none := by
  obtain ⟨c, hc, hnd⟩ := h
  have hall : ¬ (s.data ≠ [] ∧ s.data.all Char.isDigit) := by
    rintro ⟨-, hd⟩
    exact hnd (List.all_eq_true.mp hd c hc)
  have key : to_seed s = none := by
    unfold to_seed from_str_radix_ten
    rw [if_neg hall]
  exact ⟨key, by simp [Marble.new, key]⟩

/-- Witness for C6 at the seed string `12a`. -/
theorem seed_format_error_witness :
    to_seed ("12a") = none ∧ Marble.new ("12a") = none :=
  seed_format_error ("12a") ⟨'a', by decide, by decide⟩

/-- C7: a draw with modulus 0 is the fatal divide-by-zero error, and for
every seed value `build_svg` completes without ever hitting it (every draw it
performs has a fixed positive modulus). -/
theorem modulus_zero_fatal_and_unreachable :
    (∀ s : Marble, random_number 0 s = none) ∧
    (∀ v t, (build_svg ⟨v, t⟩).isSome) := by
  refine ⟨fun s => by simp [random_number], fun v t => ?_⟩
  rw [build_svg_eval]
  rfl

/-- C9: the palette is not injective — `#00FF2A` appears at indices 13 and
14 and `#0000FF` at indices 24 and 26 — so distinct color-index draws can
yield identical colors and the palette has fewer than 36 distinct values. -/
theorem palette_not_injective :
    COLORS.get? 13 = some ("#00FF2A") ∧ COLORS.get? 14 = some ("#00FF2A") ∧
    COLORS.get? 24 = some ("#0000FF") ∧ COLORS.get? 26 = some ("#0000FF") ∧
    (13 : Nat) ≠ 14 ∧ (24 : Nat) ≠ 26 ∧
    (random_color ⟨13, []⟩).map Prod.fst = (random_color ⟨14, []⟩).map Prod.fst ∧
    (13 : Nat) ≠ 14 ∧
    COLORS.dedup.length < COLORS.length := by decide

/-- C10: every color draw yields an index below 36 (which fits in a machine
word and is a valid palette index, so the conversion and the lookup cannot
fail), and the rotation draw yields a value below 359, which fits in 32
bits. -/
theorem draw_conversion_and_index_safe (v : Nat) (t : List (Nat × Nat)) :
    v % 36 < 36 ∧ v % 36 < 2 ^ 64 ∧ (COLORS.get? (v % 36)).isSome ∧
    random_color ⟨v, t⟩ = some (colorAt (v % 36), ⟨v / 36, t ++ [(36, v % 36)]⟩) ∧
    colorAt (v % 36) ∈ COLORS ∧
    v % 359 < 359 ∧ v % 359 < 2 ^ 32 := by
  have h36 : v % 36 < 36 := Nat.mod_lt _ (by norm_num)
  have h359 : v % 359 < 359 := Nat.mod_lt _ (by norm_num)
  refine ⟨h36, h36.trans (by norm_num), ?_, random_color_eval ⟨v, t⟩,
    colorAt_mem _ h36, h359, h359.trans (by norm_num)⟩
  rw [List.get?_eq_getElem?, COLORS_get _ h36]
  rfl

/-- C2: on a fresh marble, `build_svg` performs exactly seven draws in order
— three color draws with modulus 36 bound to the templates in definition
order (ellipse-A, path, ellipse-B), three shuffle draws with moduli 3, 2, 1
(each index bounded by the current pool size, the modulus-1 draw yielding 0
while still consuming a division step), then the rotation draw with
modulus 359. -/
theorem build_svg_draw_order (v : Nat) :
    ∃ out fin, build_svg ⟨v, []⟩ = some (out, fin) ∧
      fin.trace.map Prod.fst = [36, 36, 36, 3, 2, 1, 359] ∧
      fin.trace = [(36, v % 36), (36, v / 36 % 36), (36, v / 36 / 36 % 36),
                   (3, v / 36 / 36 / 36 % 3), (2, v / 36 / 36 / 36 / 3 % 2), (1, 0),
                   (359, v / 36 / 36 / 36 / 3 / 2 % 359)] ∧
      v / 36 / 36 / 36 % 3 < 3 ∧ v / 36 / 36 / 36 / 3 % 2 < 2 ∧
      out = svgDocument (String.join (shuffle3
        [shapeA (colorAt (v % 36)), shapeP (colorAt (v / 36 % 36)),
         shapeB (colorAt (v / 36 / 36 % 36))]
        (v / 36 / 36 / 36 % 3) (v / 36 / 36 / 36 / 3 % 2)))
        (v / 36 / 36 / 36 / 3 / 2 % 359) := by
  refine ⟨_, _, build_svg_eval v [], by simp, by simp, by omega, by omega, rfl⟩

/-- C8: one call to `build_svg` divides the stored seed by exactly
36·36·36·3·2·1·359 = 100497024 regardless of its value, and no single draw
ever increases the internal seed value. -/
theorem entropy_consumption_constant :
    (∀ v t, (build_svg ⟨v, t⟩).map (fun r => r.2.seed) = some (v / 100497024)) ∧
    (∀ (s : Marble) (m k : Nat) (s2 : Marble),
      random_number m s = some (k, s2) → s2.seed ≤ s.seed) := by
  constructor
  · intro v t
    rw [build_svg_eval]
    simp [Nat.div_div_eq_div_mul]
  · intro s m k s2 hdraw
    rcases m with - | m
    · simp [random_number] at hdraw
    · simp only [random_number, if_neg (Nat.succ_ne_zero m), Option.some_inj, Prod.mk.injEq] at hdraw
      rw [← hdraw.2]
      exact Nat.div_le_self _ _

/-- Witness for C8: a full call on seed 5·100497024 + 3 leaves seed 5, and a
single draw with modulus 7 from value 50 leaves 7 ≤ 50. -/
theorem entropy_consumption_constant_witness :
    (build_svg ⟨502485123, []⟩).map (fun r => r.2.seed) = some 5 ∧ (7 : Nat) ≤ 50 :=
  ⟨entropy_consumption_constant.1 502485123 [],
   entropy_consumption_constant.2 ⟨50, []⟩ 7 1 ⟨7, [(7, 1)]⟩ (by decide)⟩

/-- C1 counterexample: on the marble seeded 27993600, a second call to
`build_svg` returns a different string than the first call (the first call
draws rotation 100, the second — running on the remaining seed 0 — draws
rotation 0), so `build_svg` is not idempotent and the seed is consumed
again. -/
theorem build_svg_not_idempotent_cex :
    ((build_svg ⟨27993600, []⟩).bind fun r => build_svg r.2).map Prod.fst ≠
      (build_svg ⟨27993600, []⟩).map Prod.fst ∧
    ((build_svg ⟨27993600, []⟩).bind fun r => build_svg r.2).map (fun r => r.2.trace.length) ≠
      (build_svg ⟨27993600, []⟩).map (fun r => r.2.trace.length) := by
  constructor
  · decide
  · decide

/-- C1 (amended): `build_svg` caches nothing — every call consumes the seed
afresh.  A second call on the same marble behaves exactly like a call on a
fresh marble seeded with the remaining value `v / 100497024`: it returns that
fresh marble's output string, and it divides the stored seed by 100497024
once more.  The two calls agree only when the two remaining seeds happen to
produce the same draws (as with seed 0). -/
theorem build_svg_second_call_acts_on_remaining_seed (v : Nat) :
    ((build_svg ⟨v, []⟩).bind fun r => build_svg r.2).map Prod.fst =
      (build_svg ⟨v / 100497024, []⟩).map Prod.fst ∧
    ((build_svg ⟨v, []⟩).bind fun r => build_svg r.2).map (fun r => r.2.seed) =
      some (v / 100497024 / 100497024) := by
  constructor <;> simp [build_svg_eval, Nat.div_div_eq_div_mul]

end Marbles
